import Mathlib

/-!
Verification of the `python_project_setup` bootstrap kit: a shallow embedding
of its environment manager (`src/utils/env_manager.py`), logging wrapper
(`src/utils/logging_wrapper.py`), path setup helper (`src/utils/path_setup.py`)
and example script (`src/scripts/example_script.py`), with theorems settling
the specified contracts.

The process environment is an association list of key/value string pairs; logs
are a list of leveled messages; the filesystem seen by the dotenv loader is a
parameter mapping a path to its parsed outcome.
-/

/-- Severity levels of emitted log records. -/
inductive LogLevel where
  | debug
  | info
  | warning
  | error
  | critical
deriving DecidableEq, Repr

/-- One record sent to the module logger. -/
structure LogMsg where
  level : LogLevel
  msg : String
deriving DecidableEq, Repr

/-- Errors the Python code can raise: `RuntimeError` carrying its message and
the message of the original cause (`raise ... from e`), and `TypeError` from
`object.__new__` receiving extra arguments. -/
inductive PyError where
  | runtimeError (msg : String) (cause : String)
  | typeError (msg : String)
deriving DecidableEq, Repr

/-- The process environment `os.environ`, as an association list. -/
abbrev Env := List (String × String)

namespace Env

/-- Lookup of a variable in the process environment (`os.environ.get`). -/
def get : Env → String → Option String
  | [], _ => none
  | (k, v) :: rest, name => if k = name then some v else get rest name

end Env

/-- Outcome of parsing a dotenv file at a path: `found vars` when the file
parses to the pair list `vars` (an absent or empty file gives `found []`),
`raised m` when reading fails with an unexpected error of message `m`. -/
inductive DotenvResult where
  | found (vars : List (String × String))
  | raised (m : String)

/-- The filesystem as seen by the dotenv loader. -/
abbrev FS := String → DotenvResult

/-- Applies parsed dotenv pairs into the environment without overriding
pre-existing variables (python-dotenv default `override=False`). -/
def applyVars (environ : Env) (vars : List (String × String)) : Env :=
  vars.foldl (fun e kv => if (Env.get e kv.1).isSome then e else e ++ [kv]) environ

/-- Modelled from the spec: `load_dotenv` of the external python-dotenv
library, which is not part of this repository. Parses the file at `file_path`,
applies its pairs into the environment without overriding pre-existing
variables, and returns `true` exactly when the file contributed at least one
variable (an absent or empty file yields `false`); unexpected failures raise. -/
def load_dotenv (fs : FS) (file_path : String) (environ : Env) :
    Except String (Bool × Env) :=
  match fs file_path with
  | .raised m => .error m
  | .found vars => .ok (!vars.isEmpty, applyVars environ vars)

/-- Process-wide state relevant to `EnvManager`: the class attributes
`_instance` (instances are identified by numeric ids drawn from `nextId`) and
`_env_loaded`, the process environment, and the records written to the module
logger. -/
structure PState where
  _instance : Option Nat := none
  nextId : Nat := 0
  _env_loaded : Bool := false
  environ : Env := []
  log : List LogMsg := []
deriving DecidableEq

namespace EnvManager

/-- `EnvManager.load_env`: if `_env_loaded` is still false, runs `load_dotenv`
on the given path, logs info on a truthy result and a warning otherwise, and
sets `_env_loaded`; if `load_dotenv` raises, logs an error and raises
`RuntimeError` from the cause, leaving `_env_loaded` unset. -/
def load_env (fs : FS) (file_path : String) (s : PState) :
    PState × Option PyError :=
  if s._env_loaded then (s, none)
  else
    match load_dotenv fs file_path s.environ with
    | .error m =>
        ({ s with
            log := s.log ++
              [⟨.error, s!"Error loading environment variables from {file_path}: {m}"⟩] },
         some (.runtimeError s!"Failed to load environment variables from {file_path}" m))
    | .ok (loaded, environ1) =>
        let entry : LogMsg :=
          if loaded then ⟨.info, s!"Environment variables loaded from {file_path}"⟩
          else ⟨.warning, s!"No environment variables found in {file_path}"⟩
        ({ s with
            environ := environ1,
            log := s.log ++ [entry],
            _env_loaded := true },
         none)

/-- `EnvManager.get_env_variable`: looks up `name` via `os.getenv` with the
given default; when the resolved value is `None`, logs a warning about the
fallback. The `except` wrapper in the source is unreachable here because the
lookup is total. Returns the resolved value and the records logged. -/
def get_env_variable (environ : Env) (name : String)
    (default : Option String := none) : Option String × List LogMsg :=
  let value :=
    match Env.get environ name with
    | some v => some v
    | none => default
  match value with
  | none =>
      (none, [⟨.warning, s!"Environment variable {name} not found, using default value"⟩])
  | some v => (some v, [])

/-- `EnvManager.__init__(file_path='.env')`: triggers `load_env` unless the
class-wide `_env_loaded` flag is already set. -/
def init (fs : FS) (file_path : String) (s : PState) : PState × Option PyError :=
  if s._env_loaded then (s, none) else load_env fs file_path s

/-- A full construction request `EnvManager(arg)`: `__new__` followed by
`__init__`. When `_instance` is unset, `__new__` forwards the arguments to
`object.__new__`, which raises `TypeError` when any are present (CPython
semantics for a class overriding `__init__` but reaching `object.__new__`
with excess arguments); otherwise a fresh instance is stored. When
`_instance` is already set it is returned and no `TypeError` can occur.
`__init__` then runs on the given path (default `.env`). Returns the id of
the constructed instance or the error raised. -/
def construct (fs : FS) (arg : Option String) (s : PState) :
    PState × Except PyError Nat :=
  match s._instance with
  | some i =>
      match init fs (arg.getD ".env") s with
      | (s1, none) => (s1, .ok i)
      | (s1, some e) => (s1, .error e)
  | none =>
      match arg with
      | some _ =>
          (s, .error (.typeError "object.__new__ takes exactly one argument"))
      | none =>
          let i := s.nextId
          let s0 : PState := { s with _instance := some i, nextId := i + 1 }
          match init fs ".env" s0 with
          | (s1, none) => (s1, .ok i)
          | (s1, some e) => (s1, .error e)

/-- A sequence of construction requests within one process, threading the
state and collecting each request's outcome. -/
def runConstructs (fs : FS) : List (Option String) → PState →
    PState × List (Except PyError Nat)
  | [], s => (s, [])
  | r :: rest, s =>
      let p := construct fs r s
      let q := runConstructs fs rest p.1
      (q.1, p.2 :: q.2)

end EnvManager

namespace PathSetup

/-- `PathSetup.add_project_root_to_sys_path`: the project root (the parent of
the directory containing `path_setup.py`, a fixed string for a deployed
installation, taken here as a parameter) is inserted at the front of
`sys.path` exactly when it is not already present. -/
def add_project_root_to_sys_path (project_root : String)
    (sys_path : List String) : List String :=
  if project_root ∈ sys_path then sys_path else project_root :: sys_path

end PathSetup

namespace logging

/-- Numeric severity `logging.DEBUG`. -/
def DEBUG : Nat := 10

/-- Numeric severity `logging.INFO`. -/
def INFO : Nat := 20

/-- Numeric severity `logging.WARNING`. -/
def WARNING : Nat := 30

/-- Numeric severity `logging.ERROR`. -/
def ERROR : Nat := 40

/-- Numeric severity `logging.CRITICAL`. -/
def CRITICAL : Nat := 50

end logging

/-- The kind of a sink attached to a logger: a rotating file handler with its
directory, rotation threshold and backup count (the timestamped file name is
chosen at construction time and not modelled), or a console stream handler. -/
inductive HandlerKind where
  | file (log_dir : String) (max_bytes : Nat) (backup_count : Nat)
  | console
deriving DecidableEq, Repr

/-- A sink with its own minimum severity threshold. -/
structure Handler where
  kind : HandlerKind
  level : Nat
deriving DecidableEq, Repr

/-- A named logger in the `logging` module registry: its own level and its
attached handlers. A logger absent from the registry behaves as this
structure's defaults. -/
structure LoggerEntry where
  level : Nat := 0
  handlers : List Handler := []
deriving DecidableEq, Repr

/-- The `logging` module registry of named loggers. -/
abbrev LogRegistry := List (String × LoggerEntry)

/-- `logging.getLogger(name)`, reading the registry. -/
def getLoggerEntry : LogRegistry → String → LoggerEntry
  | [], _ => {}
  | (k, v) :: rest, name => if k = name then v else getLoggerEntry rest name

/-- Writes back the entry for `name` into the registry. -/
def setLoggerEntry : LogRegistry → String → LoggerEntry → LogRegistry
  | [], name, e => [(name, e)]
  | (k, v) :: rest, name, e =>
      if k = name then (k, e) :: rest else (k, v) :: setLoggerEntry rest name e

namespace LoggingWrapper

/-- `LoggingWrapper.__init__`: fetches the named logger, sets its level to
`DEBUG`, builds a rotating file handler (in `log_dir`, with the given
rotation threshold and backup count, at `log_level`) and a console handler
(at `console_level`), and attaches both exactly when the logger currently
has no handlers. Directory creation and the timestamped file name are side
effects outside the registry and are not modelled. -/
def init (reg : LogRegistry) (name : String) (log_dir : String := "logs")
    (log_level : Nat := logging.DEBUG) (console_level : Nat := logging.ERROR)
    (max_bytes : Nat := 5 * 1024 * 1024) (backup_count : Nat := 5) :
    LogRegistry :=
  let entry := getLoggerEntry reg name
  let entry := { entry with level := logging.DEBUG }
  let fh : Handler := ⟨.file log_dir max_bytes backup_count, log_level⟩
  let ch : Handler := ⟨.console, console_level⟩
  let entry :=
    if entry.handlers.isEmpty then { entry with handlers := [fh, ch] } else entry
  setLoggerEntry reg name entry

end LoggingWrapper

/-- One leveled logging call on the named logger: the record passes the
logger's own level filter and then each handler filters it independently;
returns the (handler, message) emissions produced. -/
def emit (reg : LogRegistry) (name : String) (lvl : Nat) (msg : String) :
    List (HandlerKind × String) :=
  let e := getLoggerEntry reg name
  if e.level ≤ lvl then
    (e.handlers.filter (fun h => h.level ≤ lvl)).map (fun h => (h.kind, msg))
  else []

/-- Result of the Python builtin `int` applied to a string: the parsed value,
or the `ValueError` it raises. Modelled on plain decimal strings with an
optional sign, the forms relevant here. -/
inductive IntResult where
  | ok (n : Int)
  | valueError (s : String)
deriving DecidableEq, Repr

/-- Decimal digits to a natural number. -/
def digitsToNat (l : List Char) : Nat :=
  l.foldl (fun a c => a * 10 + (c.toNat - 48)) 0

/-- A nonempty all-digit character list. -/
def isDigits (l : List Char) : Bool :=
  !l.isEmpty && l.all Char.isDigit

/-- The Python builtin `int` on a string (base 10). -/
def pyInt (s : String) : IntResult :=
  match s.toList with
  | '+' :: rest =>
      if isDigits rest then .ok (digitsToNat rest) else .valueError s
  | '-' :: rest =>
      if isDigits rest then .ok (-(digitsToNat rest : Int)) else .valueError s
  | l => if isDigits l then .ok (digitsToNat l) else .valueError s

/-- `do_something` of the example script: reads `NUMBER1` (default `"10"`)
and `NUMBER2` (default `"5"`) through `get_env_variable`, converts both with
`int`, and logs the two retrieved values and their sum; a `ValueError` from
either conversion is caught and logged as an error, any other failure is
caught by the generic handler and logged; the function never lets an error
escape. Returns the records logged and the error raised (always `none`). -/
def do_something (environ : Env) : List LogMsg × Option PyError :=
  let r1 := EnvManager.get_env_variable environ "NUMBER1" (some "10")
  let r2 := EnvManager.get_env_variable environ "NUMBER2" (some "5")
  let log0 := r1.2 ++ r2.2
  match r1.1, r2.1 with
  | some s1, some s2 =>
      match pyInt s1 with
      | .valueError _ =>
          (log0 ++ [⟨.error, "Error converting environment variables to integers"⟩], none)
      | .ok num1 =>
          match pyInt s2 with
          | .valueError _ =>
              (log0 ++ [⟨.error, "Error converting environment variables to integers"⟩], none)
          | .ok num2 =>
              (log0 ++
                [⟨.info, s!"Retrieved environment variables: NUMBER1={num1}, NUMBER2={num2}"⟩,
                 ⟨.info, s!"The result of adding {num1} and {num2} is {num1 + num2}"⟩], none)
  | _, _ => (log0 ++ [⟨.error, "An unexpected error occurred"⟩], none)

instance {ε α : Type} [DecidableEq ε] [DecidableEq α] : DecidableEq (Except ε α) :=
  fun a b =>
    match a, b with
    | .ok x, .ok y =>
        if h : x = y then .isTrue (by rw [h])
        else .isFalse (fun hc => h (Except.ok.inj hc))
    | .error x, .error y =>
        if h : x = y then .isTrue (by rw [h])
        else .isFalse (fun hc => h (Except.error.inj hc))
    | .ok _, .error _ => .isFalse (fun hc => Except.noConfusion hc)
    | .error _, .ok _ => .isFalse (fun hc => Except.noConfusion hc)

lemma get_env_variable_some_default (environ : Env) (name d : String) :
    EnvManager.get_env_variable environ name (some d) =
      (some ((Env.get environ name).getD d), []) := by
  unfold EnvManager.get_env_variable
  cases h : Env.get environ name <;> simp [h]

/-- C3: the claim asserts that a lookup of an absent variable with a non-None
default logs a warning; at the concrete input `name = "MISSING"`,
`default = "fallback"`, empty environment, the code returns the fallback but
logs nothing, refuting the claim as stated. -/
theorem get_env_variable_fallback_no_warning_counterexample :
    (EnvManager.get_env_variable [] "MISSING" (some "fallback")).1 = some "fallback" ∧
    (EnvManager.get_env_variable [] "MISSING" (some "fallback")).2 = [] := by
  constructor <;> rfl

/-- C3 (amended): for a variable absent from the environment and a non-None
default `d`, `get_env_variable` returns `d` and logs nothing; a warning about
the fallback is logged exactly when the default is also None (the resolved
value is None). -/
theorem get_env_variable_default_behavior (environ : Env) (name d : String)
    (h : Env.get environ name = none) :
    EnvManager.get_env_variable environ name (some d) = (some d, []) ∧
    EnvManager.get_env_variable environ name none =
      (none,
       [⟨.warning, s!"Environment variable {name} not found, using default value"⟩]) := by
  unfold EnvManager.get_env_variable
  simp [h]

/-- Witness for C3 (amended) at `name = "MISSING"`, `d = "fallback"`, empty
environment. -/
theorem get_env_variable_default_behavior_witness :
    EnvManager.get_env_variable [] "MISSING" (some "fallback") = (some "fallback", []) ∧
    EnvManager.get_env_variable [] "MISSING" none =
      (none,
       [⟨.warning, "Environment variable MISSING not found, using default value"⟩]) := by
  have h := get_env_variable_default_behavior [] "MISSING" "fallback" rfl
  exact ⟨h.1, h.2.trans (by decide)⟩

/-- C4: a `load_env` call in the unloaded state whose dotenv read raises with
message `m` logs an error, raises `RuntimeError` wrapping `m`, leaves the
`_env_loaded` flag unset and the environment unchanged. -/
theorem load_env_unexpected_error_wraps_and_keeps_unloaded (fs : FS)
    (file_path m : String) (s : PState)
    (hun : s._env_loaded = false) (hf : fs file_path = .raised m) :
    EnvManager.load_env fs file_path s =
      ({ s with log := s.log ++
          [⟨.error, s!"Error loading environment variables from {file_path}: {m}"⟩] },
       some (.runtimeError s!"Failed to load environment variables from {file_path}" m)) ∧
    (EnvManager.load_env fs file_path s).1._env_loaded = false ∧
    (EnvManager.load_env fs file_path s).1.environ = s.environ := by
  have h1 : EnvManager.load_env fs file_path s =
      ({ s with log := s.log ++
          [⟨.error, s!"Error loading environment variables from {file_path}: {m}"⟩] },
       some (.runtimeError s!"Failed to load environment variables from {file_path}" m)) := by
    unfold EnvManager.load_env load_dotenv
    simp [hun, hf]
  refine ⟨h1, ?_, ?_⟩
  · rw [h1]; simpa using hun
  · rw [h1]

/-- Witness for C4 at a filesystem whose read of `.env` raises `"boom"`. -/
theorem load_env_unexpected_error_witness :
    (EnvManager.load_env (fun _ => .raised "boom") ".env" {}).2 =
      some (.runtimeError "Failed to load environment variables from .env" "boom") ∧
    (EnvManager.load_env (fun _ => .raised "boom") ".env" {}).1._env_loaded = false := by
  have h := load_env_unexpected_error_wraps_and_keeps_unloaded
      (fun _ => .raised "boom") ".env" "boom" {} rfl rfl
  exact ⟨by rw [h.1]; rfl, h.2.1⟩

/-- C5: a `load_env` call in the unloaded state on a file that is absent or
contributes no variables logs a warning, raises nothing, leaves the
environment unchanged, and still sets the `_env_loaded` flag. -/
theorem load_env_missing_or_empty_sets_loaded (fs : FS) (file_path : String)
    (s : PState) (hun : s._env_loaded = false) (hf : fs file_path = .found []) :
    EnvManager.load_env fs file_path s =
      ({ s with
          log := s.log ++ [⟨.warning, s!"No environment variables found in {file_path}"⟩],
          _env_loaded := true }, none) := by
  unfold EnvManager.load_env load_dotenv
  simp [hun, hf, applyVars]

/-- Witness for C5 at an empty filesystem and the fresh process state. -/
theorem load_env_missing_or_empty_witness :
    EnvManager.load_env (fun _ => .found []) ".env" {} =
      ({ log := [⟨.warning, "No environment variables found in .env"⟩],
         _env_loaded := true }, none) := by
  have h := load_env_missing_or_empty_sets_loaded (fun _ => .found []) ".env" {} rfl rfl
  exact h.trans (by decide)

/-- C6: the claim asserts the project root occurs at most once in the search
path after the call for every prior path state; at the concrete prior state
`["A", "A"]` with project root `"A"`, the root is already present, the call
leaves the path unchanged and the root occurs twice, refuting the claim as
stated. -/
theorem add_project_root_duplicate_counterexample :
    ¬ List.count "A" (PathSetup.add_project_root_to_sys_path "A" ["A", "A"]) ≤ 1 := by
  decide

/-- C6 (amended): `add_project_root_to_sys_path` inserts the project root at
the front exactly when it is absent, is idempotent, and never adds a
duplicate: when the root occurs at most once beforehand it occurs at most
once afterwards. -/
theorem add_project_root_guarded_insert_idempotent (root : String)
    (p : List String) (h : List.count root p ≤ 1) :
    List.count root (PathSetup.add_project_root_to_sys_path root p) ≤ 1 ∧
    PathSetup.add_project_root_to_sys_path root
        (PathSetup.add_project_root_to_sys_path root p) =
      PathSetup.add_project_root_to_sys_path root p ∧
    (root ∉ p → PathSetup.add_project_root_to_sys_path root p = root :: p) ∧
    (root ∈ p → PathSetup.add_project_root_to_sys_path root p = p) := by
  unfold PathSetup.add_project_root_to_sys_path
  by_cases hm : root ∈ p
  · simp [hm, h]
  · have hz : List.count root p = 0 := by
      rw [List.count_eq_zero]; exact hm
    simp [hm, List.count_cons_self, hz]

/-- Witness for C6 (amended) at root `"A"` and prior path `["B"]`. -/
theorem add_project_root_guarded_insert_witness :
    PathSetup.add_project_root_to_sys_path "A" ["B"] = ["A", "B"] ∧
    PathSetup.add_project_root_to_sys_path "A" ["A", "B"] = ["A", "B"] := by
  have h := add_project_root_guarded_insert_idempotent "A" ["B"] (by decide)
  have h1 := h.2.2.1 (by decide)
  exact ⟨h1, by rw [← h1]; exact h.2.1.trans h1⟩

/-- C2: once the flag is set, `load_env` changes nothing, raises nothing, and
consults no filesystem (the result is identical under any filesystem), and a
construction with any path returns the shared instance with the state
untouched. -/
theorem envManager_loaded_is_frame (fs fs2 : FS) (path : String) (s : PState)
    (h : s._env_loaded = true) :
    EnvManager.load_env fs path s = (s, none) ∧
    EnvManager.load_env fs path s = EnvManager.load_env fs2 path s ∧
    (∀ i, s._instance = some i → ∀ arg,
      EnvManager.construct fs arg s = (s, .ok i)) := by
  have hl : ∀ g : FS, EnvManager.load_env g path s = (s, none) := by
    intro g; unfold EnvManager.load_env; simp [h]
  refine ⟨hl fs, (hl fs).trans (hl fs2).symm, ?_⟩
  intro i hi arg
  unfold EnvManager.construct EnvManager.init
  simp [hi, h]

/-- Witness for C2 at a loaded one-instance state: a further `load_env` and a
further construction with a different path leave the state untouched even
though the filesystem now holds a variable. -/
theorem envManager_loaded_is_frame_witness :
    EnvManager.load_env (fun _ => .found [("K", "V")]) ".env"
        { _instance := some 0, nextId := 1, _env_loaded := true } =
      ({ _instance := some 0, nextId := 1, _env_loaded := true }, none) ∧
    EnvManager.construct (fun _ => .found [("K", "V")]) (some "other.env")
        { _instance := some 0, nextId := 1, _env_loaded := true } =
      ({ _instance := some 0, nextId := 1, _env_loaded := true }, .ok 0) := by
  have h := envManager_loaded_is_frame (fun _ => .found [("K", "V")])
      (fun _ => .found []) ".env"
      { _instance := some 0, nextId := 1, _env_loaded := true } rfl
  exact ⟨h.1, h.2.2 0 rfl (some "other.env")⟩

lemma load_env_instance (fs : FS) (p : String) (s : PState) :
    (EnvManager.load_env fs p s).1._instance = s._instance := by
  unfold EnvManager.load_env
  split
  · rfl
  · split <;> rfl

lemma init_instance (fs : FS) (p : String) (s : PState) :
    (EnvManager.init fs p s).1._instance = s._instance := by
  unfold EnvManager.init
  split
  · rfl
  · exact load_env_instance fs p s

lemma construct_instance_persist (fs : FS) (arg : Option String) (s : PState)
    (i : Nat) (h : s._instance = some i) :
    (EnvManager.construct fs arg s).1._instance = some i ∧
    ∀ j, (EnvManager.construct fs arg s).2 = .ok j → j = i := by
  unfold EnvManager.construct
  simp only [h]
  have hins := init_instance fs (arg.getD ".env") s
  rcases hE : EnvManager.init fs (arg.getD ".env") s with ⟨s1, e⟩
  rw [hE] at hins
  cases e with
  | none => simp_all
  | some err => simp_all

lemma construct_ok_instance (fs : FS) (arg : Option String) (s : PState)
    (j : Nat) (h : (EnvManager.construct fs arg s).2 = .ok j) :
    (EnvManager.construct fs arg s).1._instance = some j := by
  cases hI : s._instance with
  | some i =>
      obtain ⟨h1, h2⟩ := construct_instance_persist fs arg s i hI
      rw [h2 j h]
      exact h1
  | none =>
      unfold EnvManager.construct at h ⊢
      simp only [hI] at h ⊢
      cases arg with
      | some a => simp at h
      | none =>
          have hins := init_instance fs ".env"
            { s with _instance := some s.nextId, nextId := s.nextId + 1 }
          rcases hE : EnvManager.init fs ".env"
              { s with _instance := some s.nextId, nextId := s.nextId + 1 } with ⟨s1, e⟩
          rw [hE] at hins
          simp only [hE] at h ⊢
          cases e with
          | none => simp_all
          | some err => simp_all

lemma runConstructs_ok_of_instance (fs : FS) (reqs : List (Option String))
    (i : Nat) :
    ∀ s : PState, s._instance = some i →
      ∀ j, Except.ok j ∈ (EnvManager.runConstructs fs reqs s).2 → j = i := by
  induction reqs with
  | nil =>
      intro s h j hj
      simp [EnvManager.runConstructs] at hj
  | cons r rest ih =>
      intro s h j hj
      simp only [EnvManager.runConstructs, List.mem_cons] at hj
      rcases hj with hj | hj
      · exact (construct_instance_persist fs r s i h).2 j hj.symm
      · exact ih (EnvManager.construct fs r s).1
          (construct_instance_persist fs r s i h).1 j hj

/-- C1: over any sequence of construction requests within one process, any
two constructions that return an instance return the same one: callers never
observe two distinct manager objects. -/
theorem envManager_singleton_unique (fs : FS) (reqs : List (Option String)) :
    ∀ s : PState, ∀ i1 i2 : Nat,
      Except.ok i1 ∈ (EnvManager.runConstructs fs reqs s).2 →
      Except.ok i2 ∈ (EnvManager.runConstructs fs reqs s).2 → i1 = i2 := by
  induction reqs with
  | nil =>
      intro s i1 i2 h1 h2
      simp [EnvManager.runConstructs] at h1
  | cons r rest ih =>
      intro s i1 i2 h1 h2
      simp only [EnvManager.runConstructs, List.mem_cons] at h1 h2
      rcases h1 with h1 | h1 <;> rcases h2 with h2 | h2
      · exact Except.ok.inj (h1.trans h2.symm)
      · exact (runConstructs_ok_of_instance fs rest i1
          (EnvManager.construct fs r s).1
          (construct_ok_instance fs r s i1 h1.symm) i2 h2).symm
      · exact runConstructs_ok_of_instance fs rest i2
          (EnvManager.construct fs r s).1
          (construct_ok_instance fs r s i2 h2.symm) i1 h1
      · exact ih (EnvManager.construct fs r s).1 i1 i2 h1 h2

/-- Witness for C1 at a concrete two-request trace from the fresh process
state: both constructions return instance `0`. -/
theorem envManager_singleton_unique_witness :
    Except.ok 0 ∈ (EnvManager.runConstructs (fun _ => .found []) [none, some "b.env"] {}).2 ∧
    (0 : Nat) = 0 := by
  refine ⟨by decide, ?_⟩
  exact envManager_singleton_unique (fun _ => .found []) [none, some "b.env"] {} 0 0
    (by decide) (by decide)

/-- C10: in the fresh-instance state, a construction with an explicit
argument raises `TypeError` with the state fully untouched (no load is
attempted), while the zero-argument construction succeeds whenever reading
the default `.env` path does not raise, returning the fresh instance id. -/
theorem envManager_first_construct_with_args_typeerror (fs : FS) (s : PState)
    (a : String) (h : s._instance = none) :
    EnvManager.construct fs (some a) s =
      (s, .error (.typeError "object.__new__ takes exactly one argument")) ∧
    (∀ vars, fs ".env" = .found vars →
      (EnvManager.construct fs none s).2 = .ok s.nextId) := by
  constructor
  · unfold EnvManager.construct
    simp [h]
  · intro vars hv
    unfold EnvManager.construct EnvManager.init
    simp only [h]
    by_cases hl : s._env_loaded
    · simp [hl]
    · unfold EnvManager.load_env load_dotenv
      simp [hl, hv]

/-- Witness for C10 at the fresh process state: `EnvManager("custom.env")`
raises `TypeError` with nothing changed, `EnvManager()` returns instance 0. -/
theorem envManager_first_construct_with_args_witness :
    EnvManager.construct (fun _ => DotenvResult.found []) (some "custom.env") {} =
      ({}, .error (.typeError "object.__new__ takes exactly one argument")) ∧
    (EnvManager.construct (fun _ => DotenvResult.found []) none {}).2 = .ok 0 := by
  have h := envManager_first_construct_with_args_typeerror
      (fun _ => DotenvResult.found []) {} "custom.env" rfl
  exact ⟨h.1, h.2 [] rfl⟩

lemma getLoggerEntry_set (reg : LogRegistry) (name : String) (e : LoggerEntry) :
    getLoggerEntry (setLoggerEntry reg name e) name = e := by
  induction reg with
  | nil => simp [setLoggerEntry, getLoggerEntry]
  | cons kv rest ih =>
      obtain ⟨k, v⟩ := kv
      unfold setLoggerEntry
      by_cases hk : k = name
      · simp [getLoggerEntry, hk]
      · simp [getLoggerEntry, hk, ih]

lemma getLoggerEntry_init (reg : LogRegistry) (name d : String) (l c m b : Nat) :
    getLoggerEntry (LoggingWrapper.init reg name d l c m b) name =
      if (getLoggerEntry reg name).handlers.isEmpty then
        { getLoggerEntry reg name with
          level := logging.DEBUG,
          handlers := [⟨.file d m b, l⟩, ⟨.console, c⟩] }
      else { getLoggerEntry reg name with level := logging.DEBUG } := by
  unfold LoggingWrapper.init
  rw [getLoggerEntry_set]

/-- C7: a second wrapper construction with the same name, with any argument
values, leaves the named logger's registry entry exactly as the first left
it — no additional sinks are attached — and hence a single leveled call
emits the same records as after one construction, with no duplicates. -/
theorem loggingWrapper_second_init_attaches_no_sinks (reg : LogRegistry)
    (name d1 d2 : String) (l1 c1 m1 b1 l2 c2 m2 b2 lvl : Nat) (msg : String) :
    getLoggerEntry
        (LoggingWrapper.init (LoggingWrapper.init reg name d1 l1 c1 m1 b1)
          name d2 l2 c2 m2 b2) name =
      getLoggerEntry (LoggingWrapper.init reg name d1 l1 c1 m1 b1) name ∧
    emit (LoggingWrapper.init (LoggingWrapper.init reg name d1 l1 c1 m1 b1)
          name d2 l2 c2 m2 b2) name lvl msg =
      emit (LoggingWrapper.init reg name d1 l1 c1 m1 b1) name lvl msg := by
  have h1 := getLoggerEntry_init reg name d1 l1 c1 m1 b1
  have hne : (getLoggerEntry (LoggingWrapper.init reg name d1 l1 c1 m1 b1)
      name).handlers.isEmpty = false := by
    rw [h1]
    split <;> simp_all
  have hlev : (getLoggerEntry (LoggingWrapper.init reg name d1 l1 c1 m1 b1)
      name).level = logging.DEBUG := by
    rw [h1]
    split <;> rfl
  have h2 := getLoggerEntry_init (LoggingWrapper.init reg name d1 l1 c1 m1 b1)
      name d2 l2 c2 m2 b2
  rw [hne] at h2
  simp only [Bool.false_eq_true, if_false] at h2
  have hentry : getLoggerEntry
      (LoggingWrapper.init (LoggingWrapper.init reg name d1 l1 c1 m1 b1)
        name d2 l2 c2 m2 b2) name =
      getLoggerEntry (LoggingWrapper.init reg name d1 l1 c1 m1 b1) name := by
    rw [h2, ← hlev]
  exact ⟨hentry, by unfold emit; rw [hentry]⟩

/-- C9: constructing a wrapper with only a name on a logger with no attached
sinks yields exactly the default configuration: directory `"logs"`, a file
sink at `DEBUG` (the most verbose level) with rotation threshold
`5 * 1024 * 1024 = 5242880` bytes and `5` retained backups, and a console
sink independently at `ERROR`. -/
theorem loggingWrapper_default_configuration (reg : LogRegistry) (name : String)
    (h : (getLoggerEntry reg name).handlers = []) :
    getLoggerEntry (LoggingWrapper.init reg name) name =
      { level := logging.DEBUG,
        handlers := [⟨.file "logs" (5 * 1024 * 1024) 5, logging.DEBUG⟩,
                     ⟨.console, logging.ERROR⟩] } ∧
    5 * 1024 * 1024 = 5242880 ∧
    logging.DEBUG < logging.INFO ∧ logging.INFO < logging.WARNING ∧
    logging.WARNING < logging.ERROR ∧ logging.ERROR < logging.CRITICAL := by
  refine ⟨?_, by decide, by decide, by decide, by decide, by decide⟩
  have h1 := getLoggerEntry_init reg name "logs" logging.DEBUG logging.ERROR
      (5 * 1024 * 1024) 5
  rw [h, List.isEmpty_nil, if_pos rfl] at h1
  exact h1

/-- Witness for C9 at the empty registry and name `"app"`. -/
theorem loggingWrapper_default_configuration_witness :
    getLoggerEntry (LoggingWrapper.init [] "app") "app" =
      { level := 10,
        handlers := [⟨.file "logs" 5242880 5, 10⟩, ⟨.console, 40⟩] } := by
  have h := loggingWrapper_default_configuration [] "app" rfl
  exact h.1.trans (by decide)

/-- C8: whenever the resolved values of `NUMBER1` (default `"10"`) and
`NUMBER2` (default `"5"`) are base-10 integer strings, `do_something` logs
the retrieved values and their sum and raises nothing; whenever the resolved
value of `NUMBER1` is non-numeric, it logs a conversion error and returns
normally with nothing raised. -/
theorem do_something_sum_and_conversion_error (environ : Env) :
    (∀ n1 n2 : Int,
      pyInt ((Env.get environ "NUMBER1").getD "10") = .ok n1 →
      pyInt ((Env.get environ "NUMBER2").getD "5") = .ok n2 →
      do_something environ =
        ([⟨.info, s!"Retrieved environment variables: NUMBER1={n1}, NUMBER2={n2}"⟩,
          ⟨.info, s!"The result of adding {n1} and {n2} is {n1 + n2}"⟩], none)) ∧
    (∀ t : String,
      pyInt ((Env.get environ "NUMBER1").getD "10") = .valueError t →
      do_something environ =
        ([⟨.error, "Error converting environment variables to integers"⟩], none)) := by
  constructor
  · intro n1 n2 h1 h2
    unfold do_something
    rw [get_env_variable_some_default, get_env_variable_some_default]
    simp [h1, h2]
  · intro t h1
    unfold do_something
    rw [get_env_variable_some_default, get_env_variable_some_default]
    simp [h1]

/-- Witness for C8: with `NUMBER1=7` and `NUMBER2=3` the example logs a
result of `10`; with `NUMBER1=abc` it logs the conversion error and raises
nothing. -/
theorem do_something_sum_witness :
    do_something [("NUMBER1", "7"), ("NUMBER2", "3")] =
      ([⟨.info, "Retrieved environment variables: NUMBER1=7, NUMBER2=3"⟩,
        ⟨.info, "The result of adding 7 and 3 is 10"⟩], none) ∧
    do_something [("NUMBER1", "abc")] =
      ([⟨.error, "Error converting environment variables to integers"⟩], none) := by
  constructor
  · have h := (do_something_sum_and_conversion_error
        [("NUMBER1", "7"), ("NUMBER2", "3")]).1 7 3 (by decide) (by decide)
    exact h.trans (by decide)
  · exact (do_something_sum_and_conversion_error [("NUMBER1", "abc")]).2 "abc" (by decide)
